import Mathlib

/-!
Verification of the meeting-minutes transcript-summarization backend
(`backend/app/main.py`, `backend/app/db.py`, `backend/app/transcript_processor.py`)
against its natural-language specification.

The Python sources are shallowly embedded: transcript text is a `List Char`
(Python `str` slicing is per character), Python `int` parameters are `Int`,
timestamps are abstract `Nat` ticks (each `datetime.utcnow()` call is one
parameter), SQLite tables are association lists keyed by `meeting_id`, and
fallible Python code returns `Except`.
-/

namespace MeetingMinutes

/-! ### Chunking (transcript_processor.py lines 159-169, main.py lines 83-110)

`transcript_processor.py` splits the text with
`chunks = [text[i:i+chunk_size] for i in range(0, len(text), step)]`.
`pyRangeGo` embeds Python `range(0, n, step)` for a positive step; the fuel
argument only drives structural recursion and `n + 1` of it is always enough
(each iteration advances `i` by `step ≥ 1`). -/

def pyRangeGo (n step : Nat) : Nat → Nat → List Nat
  | 0, _ => []
  | fuel + 1, i => if i < n then i :: pyRangeGo n step fuel (i + step) else []

/-- Python `range(0, n, step)` for `step ≥ 1`. -/
def pyRange (n step : Nat) : List Nat :=
  pyRangeGo n step (n + 1) 0

/-- The chunk list comprehension of `transcript_processor.py` line 167:
`[text[i:i+chunk_size] for i in range(0, len(text), step)]`. -/
def tp_windows (text : List Char) (chunk_size step : Nat) : List (List Char) :=
  (pyRange text.length step).map (fun i => (text.drop i).take chunk_size)

/-- Lines 161-166 of `transcript_processor.py`: `step = chunk_size - overlap`;
if `step <= 0` then `overlap = max(0, chunk_size - 100)` and the step is
recomputed. Returns the (possibly adjusted) overlap and the step. -/
def tp_repair (chunk_size overlap : Int) : Int × Int :=
  let step := chunk_size - overlap
  if step ≤ 0 then
    let overlap2 := max 0 (chunk_size - 100)
    (overlap2, chunk_size - overlap2)
  else (overlap, step)

/-- Errors that can escape the processing pipeline into the background task
(`str(e)` of the Python exceptions raised in `main.py` / `transcript_processor.py`). -/
inductive JobError where
  | emptyText
  | badChunkSize
  | badOverlap
  | missingAnthropicKey
  | missingGroqKey
  | unsupportedProvider (model : String)
  | zeroStep
deriving DecidableEq

/-- The `str(e)` text of each embedded Python exception. -/
def JobError.message : JobError → String
  | .emptyText => "Empty transcript text provided"
  | .badChunkSize => "chunk_size must be positive"
  | .badOverlap => "overlap must be non-negative"
  | .missingAnthropicKey => "ANTHROPIC_API_KEY not set"
  | .missingGroqKey => "GROQ_API_KEY not set"
  | .unsupportedProvider m => "Unsupported model provider: " ++ m
  | .zeroStep => "range() arg 3 must not be zero"

/-- Chunk computation of `transcript_processor.process_transcript`:
the inner repair (lines 161-166) followed by the list comprehension
(line 167).  A zero step would make Python `range` raise `ValueError`
(caught by the background task); a negative step yields an empty `range`. -/
def tp_chunks (text : List Char) (chunk_size overlap : Int) : Except JobError (List (List Char)) :=
  let step := (tp_repair chunk_size overlap).2
  if step = 0 then .error .zeroStep
  else if step < 0 then .ok []
  else .ok (tp_windows text chunk_size.toNat step.toNat)

/-- Parameter repair of `SummaryProcessor.process_transcript`
(`main.py` lines 94-100), applied after the validation guards: if
`overlap >= chunk_size` then `overlap = chunk_size - 1`; if the step
`chunk_size - overlap` is still non-positive then `chunk_size = overlap + 1`.
Returns the repaired `(chunk_size, overlap)`. -/
def sp_repair (chunk_size overlap : Int) : Int × Int :=
  let overlap1 := if overlap ≥ chunk_size then chunk_size - 1 else overlap
  let step_size := chunk_size - overlap1
  let chunk_size1 := if step_size ≤ 0 then overlap1 + 1 else chunk_size
  (chunk_size1, overlap1)

/-- Reassembly used to state the chunker reconstruction property: keep the
first window whole and strip the leading `overlap` characters from every
later window, then concatenate. -/
def joinOverlap (ws : List (List Char)) (overlap : Nat) : List Char :=
  match ws with
  | [] => []
  | w :: rest => w ++ (rest.map (fun r => r.drop overlap)).flatten

/-! ### Structured summaries (transcript_processor.py lines 21-42)

The pydantic models `Block`, `Section` and `SummaryResponse`. -/

structure Block where
  id : String
  type : String
  content : String
  color : String
deriving DecidableEq

structure SummarySection where
  title : String
  blocks : List Block
deriving DecidableEq

/-- The eight-field structure every chunk result and the final aggregate
satisfy.  Having exactly these seven section fields (plus `MeetingName`)
embeds the invariant that all seven section keys are always present. -/
structure SummaryResponse where
  MeetingName : String
  SectionSummary : SummarySection
  CriticalDeadlines : SummarySection
  KeyItemsDecisions : SummarySection
  ImmediateActionItems : SummarySection
  NextSteps : SummarySection
  OtherImportantPoints : SummarySection
  ClosingRemarks : SummarySection
deriving DecidableEq

/-- Enumeration of the seven fixed section keys. -/
inductive SectionKey where
  | sectionSummary
  | criticalDeadlines
  | keyItemsDecisions
  | immediateActionItems
  | nextSteps
  | otherImportantPoints
  | closingRemarks
deriving DecidableEq, Fintype

def SummaryResponse.sectionOf (s : SummaryResponse) : SectionKey → SummarySection
  | .sectionSummary => s.SectionSummary
  | .criticalDeadlines => s.CriticalDeadlines
  | .keyItemsDecisions => s.KeyItemsDecisions
  | .immediateActionItems => s.ImmediateActionItems
  | .nextSteps => s.NextSteps
  | .otherImportantPoints => s.OtherImportantPoints
  | .closingRemarks => s.ClosingRemarks

/-- The fixed display titles of the `final_summary` dict literal
(`main.py` lines 148-178). -/
def sectionTitle : SectionKey → String
  | .sectionSummary => "Section Summary"
  | .criticalDeadlines => "Critical Deadlines"
  | .keyItemsDecisions => "Key Items & Decisions"
  | .immediateActionItems => "Immediate Action Items"
  | .nextSteps => "Next Steps"
  | .otherImportantPoints => "Other Important Points"
  | .closingRemarks => "Closing Remarks"

/-- The initial `final_summary` dict of `process_transcript_background`
(`main.py` lines 148-178): empty meeting name, all seven sections present
with their display titles and empty `blocks`. -/
def emptyFinalSummary : SummaryResponse where
  MeetingName := ""
  SectionSummary := ⟨"Section Summary", []⟩
  CriticalDeadlines := ⟨"Critical Deadlines", []⟩
  KeyItemsDecisions := ⟨"Key Items & Decisions", []⟩
  ImmediateActionItems := ⟨"Immediate Action Items", []⟩
  NextSteps := ⟨"Next Steps", []⟩
  OtherImportantPoints := ⟨"Other Important Points", []⟩
  ClosingRemarks := ⟨"Closing Remarks", []⟩

/-- One iteration of the aggregation loop of `process_transcript_background`
(`main.py` lines 181-195) on a successfully parsed chunk summary: a truthy
(non-empty) `MeetingName` overwrites the accumulator, and every section's
`blocks` list is extended in place.  The input summaries are the parsed
`model_dump_json` strings of the pydantic `SummaryResponse`, so the
`json.loads` and key/shape guards of the loop always pass. -/
def aggStep (final j : SummaryResponse) : SummaryResponse where
  MeetingName := if j.MeetingName = "" then final.MeetingName else j.MeetingName
  SectionSummary := ⟨final.SectionSummary.title, final.SectionSummary.blocks ++ j.SectionSummary.blocks⟩
  CriticalDeadlines := ⟨final.CriticalDeadlines.title, final.CriticalDeadlines.blocks ++ j.CriticalDeadlines.blocks⟩
  KeyItemsDecisions := ⟨final.KeyItemsDecisions.title, final.KeyItemsDecisions.blocks ++ j.KeyItemsDecisions.blocks⟩
  ImmediateActionItems := ⟨final.ImmediateActionItems.title, final.ImmediateActionItems.blocks ++ j.ImmediateActionItems.blocks⟩
  NextSteps := ⟨final.NextSteps.title, final.NextSteps.blocks ++ j.NextSteps.blocks⟩
  OtherImportantPoints := ⟨final.OtherImportantPoints.title, final.OtherImportantPoints.blocks ++ j.OtherImportantPoints.blocks⟩
  ClosingRemarks := ⟨final.ClosingRemarks.title, final.ClosingRemarks.blocks ++ j.ClosingRemarks.blocks⟩

/-- The aggregation loop of `main.py` lines 180-195 over the ordered chunk
summaries. -/
def aggregate (chunks : List SummaryResponse) : SummaryResponse :=
  chunks.foldl aggStep emptyFinalSummary

/-! ### Model adapter and the per-chunk loop
(transcript_processor.py lines 103-215) -/

inductive AdapterError where
  | malformed
  | modelUnavailable
  | modelTimeout
deriving DecidableEq

/-- Credentials read from process-wide configuration via `os.getenv`; Python
treats a missing or empty variable as falsy. -/
structure Env where
  anthropic_api_key : Option String
  groq_api_key : Option String
deriving DecidableEq

/-- Provider selection of `transcript_processor.process_transcript`
(lines 137-151): `claude` and `groq` require their API key, `ollama` needs
none, and an unknown provider raises `ValueError`. -/
def selectModel (env : Env) (model : String) : Except JobError Unit :=
  if model = "claude" then
    if env.anthropic_api_key.getD "" = "" then .error .missingAnthropicKey else .ok ()
  else if model = "ollama" then .ok ()
  else if model = "groq" then
    if env.groq_api_key.getD "" = "" then .error .missingGroqKey else .ok ()
  else .error (.unsupportedProvider model)

/-- Modelled from the spec: the retry loop inside the pydantic-ai `Agent.run`
call is external library code (the agent is constructed with
`result_retries=5` in `transcript_processor.py` line 156); per the spec it
retries the adapter call on malformed output only, up to the fixed bound,
and propagates transport-level failures immediately.  `attempt j` is the
outcome of the j-th raw adapter call for the chunk. -/
def agentRunGo (attempt : Nat → Except AdapterError SummaryResponse) :
    Nat → Nat → Except AdapterError SummaryResponse
  | k, 0 => attempt k
  | k, retries + 1 =>
    match attempt k with
    | .error .malformed => agentRunGo attempt (k + 1) retries
    | r => r

/-- Modelled from the spec: one `agent.run` call with up to 5 retries on
malformed output. -/
def agentRun (attempt : Nat → Except AdapterError SummaryResponse) :
    Except AdapterError SummaryResponse :=
  agentRunGo attempt 0 5

/-- The per-chunk loop of `transcript_processor.process_transcript`
(lines 171-207): chunk `i`'s `agent.run` outcome is abstracted as `run i`;
a successful summary is appended to `all_json_data`, and any exception is
caught by the per-chunk `except Exception` handler, logged and skipped. -/
def processChunks (run : Nat → Except AdapterError SummaryResponse) (numChunks : Nat) :
    List SummaryResponse :=
  (List.range numChunks).filterMap (fun i => (run i).toOption)

/-- `TranscriptProcessor.process_transcript` (lines 103-215): select the
provider, repair the chunk parameters, split the text, run the per-chunk
loop; returns the chunk count and the successful chunk summaries.  The
`model_name` argument only feeds the adapter construction, which is
abstracted by `run`. -/
def tp_process_transcript (env : Env) (run : Nat → Except AdapterError SummaryResponse)
    (text : List Char) (model model_name : String) (chunk_size overlap : Int) :
    Except JobError (Nat × List SummaryResponse) :=
  match selectModel env model with
  | .error e => .error e
  | .ok _ =>
    match tp_chunks text chunk_size overlap with
    | .error e => .error e
    | .ok chunks => .ok (chunks.length, processChunks run chunks.length)

/-- `SummaryProcessor.process_transcript` (`main.py` lines 83-116): the
validation guards and the parameter repair (`sp_repair`), then delegation to
the transcript processor. -/
def sp_process_transcript (env : Env) (run : Nat → Except AdapterError SummaryResponse)
    (text : List Char) (model model_name : String) (chunk_size overlap : Int) :
    Except JobError (Nat × List SummaryResponse) :=
  if text.isEmpty then .error .emptyText
  else if chunk_size ≤ 0 then .error .badChunkSize
  else if overlap < 0 then .error .badOverlap
  else
    tp_process_transcript env run text model model_name
      (sp_repair chunk_size overlap).1 (sp_repair chunk_size overlap).2

/-! ### Job store (db.py)

One `summary_processes` row; timestamps are abstract `Nat` ticks and the
`REAL` column `processing_time` is carried as `Rat` (no arithmetic is ever
performed on it). -/

structure ProcessRow where
  status : String
  created_at : Nat
  updated_at : Nat
  error : Option String
  result : Option String
  start_time : Option Nat
  end_time : Option Nat
  chunk_count : Int
  processing_time : Rat
  metadata : Option String
deriving DecidableEq

/-- Python values passed for the `result` and `metadata` parameters of
`update_process`: a JSON string (what `main.py` line 203 actually passes) or
a dict (the annotated type; values are modelled as strings, which covers
every call in the repository). -/
inductive PyVal where
  | pstr (s : String)
  | pdict (pairs : List (String × String))
deriving DecidableEq

/-- Python truthiness of the values above (`if result:` and `if metadata:`). -/
def PyVal.truthy : PyVal → Bool
  | .pstr s => !(s == "")
  | .pdict ps => !ps.isEmpty

/-- JSON string literal with the escapes relevant here (a simplified model of
the `json.dumps` string encoder; no claim depends on the exact text). -/
def jsonQuote (s : String) : String :=
  "\"" ++ String.join (s.toList.map (fun c =>
    if c = '\\' then "\\\\" else if c = '\"' then "\\\"" else String.singleton c)) ++ "\""

def commaSep : List String → String
  | [] => ""
  | [x] => x
  | x :: xs => x ++ ", " ++ commaSep xs

/-- Model of `json.dumps` on the values accepted by `update_process`.
Note that a string value gets quoted again (this is how the orchestrator's
already-serialized `result` ends up double encoded, which `get_summary`
undoes on read). -/
def PyVal.dumps : PyVal → String
  | .pstr s => jsonQuote s
  | .pdict ps => "\x7b" ++ commaSep (ps.map (fun kv => jsonQuote kv.1 ++ ": " ++ jsonQuote kv.2)) ++ "\x7d"

/-- Effect of SQL `UPDATE ... WHERE meeting_id = ?` on the association list. -/
def patchRows (rows : List (String × ProcessRow)) (meeting_id : String)
    (patch : ProcessRow → ProcessRow) : List (String × ProcessRow) :=
  rows.map (fun kv => if kv.1 = meeting_id then (kv.1, patch kv.2) else kv)

/-- Row lookup by `meeting_id` (SQL `SELECT ... WHERE meeting_id = ?`). -/
def getRow (rows : List (String × ProcessRow)) (meeting_id : String) : Option ProcessRow :=
  (rows.find? (fun kv => kv.1 == meeting_id)).map (fun kv => kv.2)

/-- `DatabaseManager.create_process` (`db.py` lines 91-115): try the UPDATE
first (reset an existing row to PENDING, clearing `error` and `result` and
restamping `updated_at` and `start_time`); if no row matched, INSERT a fresh
PENDING row with `created_at = updated_at = start_time = now`; return the
caller-supplied `meeting_id`. -/
def create_process (rows : List (String × ProcessRow)) (meeting_id : String) (now : Nat) :
    List (String × ProcessRow) × String :=
  if rows.any (fun kv => kv.1 == meeting_id) then
    (patchRows rows meeting_id (fun row =>
      { row with status := "PENDING", updated_at := now, start_time := some now,
                 error := none, result := none }), meeting_id)
  else
    (rows ++ [(meeting_id,
      { status := "PENDING", created_at := now, updated_at := now, error := none,
        result := none, start_time := some now, end_time := none, chunk_count := 0,
        processing_time := 0, metadata := none })], meeting_id)

/-- The per-row effect of `DatabaseManager.update_process`
(`db.py` lines 117-149): `status` and `updated_at` are always written;
`result`, `error` and `metadata` only when truthy (with `json.dumps` applied
to `result`/`metadata`); `chunk_count` and `processing_time` whenever not
None; `end_time` is stamped exactly when the supplied status string equals
the upper-case `COMPLETED` or `FAILED`. -/
def update_row (row0 : ProcessRow) (status : String) (result : Option PyVal)
    (error : Option String) (chunk_count : Option Int) (processing_time : Option Rat)
    (metadata : Option PyVal) (now : Nat) : ProcessRow :=
  let row1 := { row0 with status := status, updated_at := now }
  let row2 := match result with
    | some v => if v.truthy then { row1 with result := some v.dumps } else row1
    | none => row1
  let row3 := match error with
    | some e => if e = "" then row2 else { row2 with error := some e }
    | none => row2
  let row4 := match chunk_count with
    | some c => { row3 with chunk_count := c }
    | none => row3
  let row5 := match processing_time with
    | some p => { row4 with processing_time := p }
    | none => row4
  let row6 := match metadata with
    | some m => if m.truthy then { row5 with metadata := some m.dumps } else row5
    | none => row5
  if status = "COMPLETED" ∨ status = "FAILED" then { row6 with end_time := some now } else row6

/-- `DatabaseManager.update_process` (`db.py` lines 117-149). -/
def update_process (rows : List (String × ProcessRow)) (meeting_id status : String)
    (result : Option PyVal) (error : Option String) (chunk_count : Option Int)
    (processing_time : Option Rat) (metadata : Option PyVal) (now : Nat) :
    List (String × ProcessRow) :=
  patchRows rows meeting_id
    (fun row => update_row row status result error chunk_count processing_time metadata now)

/-- One `transcript_chunks` row (`db.py` lines 66-78). -/
structure TranscriptRow where
  meeting_name : Option String
  transcript_text : List Char
  model : String
  model_name : String
  chunk_size : Int
  overlap : Int
  created_at : Nat
deriving DecidableEq

/-- One `meetings` row (`db.py` lines 25-32). -/
structure MeetingRow where
  title : String
  created_at : Nat
  updated_at : Nat
deriving DecidableEq

/-- The tables touched by the transcript-processing flow. -/
structure DB where
  summary_processes : List (String × ProcessRow)
  transcript_chunks : List (String × TranscriptRow)
  meetings : List (String × MeetingRow)
deriving DecidableEq

/-- `DatabaseManager.save_transcript` (`db.py` lines 183-202): upsert of the
`transcript_chunks` row (the existing `meeting_name` is kept on update). -/
def save_transcript (rows : List (String × TranscriptRow)) (meeting_id : String)
    (text : List Char) (model model_name : String) (chunk_size overlap : Int) (now : Nat) :
    List (String × TranscriptRow) :=
  if rows.any (fun kv => kv.1 == meeting_id) then
    rows.map (fun kv => if kv.1 = meeting_id then
      (kv.1, { kv.2 with transcript_text := text, model := model,
                         model_name := model_name, chunk_size := chunk_size,
                         overlap := overlap, created_at := now }) else kv)
  else
    rows ++ [(meeting_id,
      { meeting_name := none, transcript_text := text, model := model,
        model_name := model_name, chunk_size := chunk_size, overlap := overlap,
        created_at := now })]

/-- `DatabaseManager.update_meeting_name` (`db.py` lines 204-222): update the
`meetings` title and the `transcript_chunks` name for matching rows. -/
def update_meeting_name (db : DB) (meeting_id name : String) (now : Nat) : DB :=
  { db with
    meetings := db.meetings.map (fun kv => if kv.1 = meeting_id then
      (kv.1, { kv.2 with title := name, updated_at := now }) else kv),
    transcript_chunks := db.transcript_chunks.map (fun kv => if kv.1 = meeting_id then
      (kv.1, { kv.2 with meeting_name := some name }) else kv) }

/-! ### Orchestrator (main.py lines 132-250) -/

/-- The pydantic request model `TranscriptRequest` (`main.py` lines 54-60);
`chunk_size` and `overlap` default to 5000 and 1000 at the HTTP layer. -/
structure TranscriptRequest where
  text : List Char
  model : String
  model_name : String
  chunk_size : Int
  overlap : Int
deriving DecidableEq

def blockJson (b : Block) : String :=
  "\x7b\"id\": " ++ jsonQuote b.id ++ ", \"type\": " ++ jsonQuote b.type ++
  ", \"content\": " ++ jsonQuote b.content ++ ", \"color\": " ++ jsonQuote b.color ++ "\x7d"

def sectionJson (s : SummarySection) : String :=
  "\x7b\"title\": " ++ jsonQuote s.title ++ ", \"blocks\": [" ++
  commaSep (s.blocks.map blockJson) ++ "]\x7d"

/-- Model of `json.dumps(final_summary)` (`main.py` line 203). -/
def finalJson (f : SummaryResponse) : String :=
  "\x7b\"MeetingName\": " ++ jsonQuote f.MeetingName ++
  ", \"SectionSummary\": " ++ sectionJson f.SectionSummary ++
  ", \"CriticalDeadlines\": " ++ sectionJson f.CriticalDeadlines ++
  ", \"KeyItemsDecisions\": " ++ sectionJson f.KeyItemsDecisions ++
  ", \"ImmediateActionItems\": " ++ sectionJson f.ImmediateActionItems ++
  ", \"NextSteps\": " ++ sectionJson f.NextSteps ++
  ", \"OtherImportantPoints\": " ++ sectionJson f.OtherImportantPoints ++
  ", \"ClosingRemarks\": " ++ sectionJson f.ClosingRemarks ++ "\x7d"

/-- `process_transcript_background` (`main.py` lines 132-213): run the
processing pipeline; on success aggregate the chunk results, update the
meeting name when non-empty, and write the terminal update with
`status="completed"` (lower case) and `result=json.dumps(final_summary)`
(already a string, so `update_process` serializes it a second time); on any
exception write `status="failed"` with `error=str(e)`. -/
def process_transcript_background (env : Env) (run : Nat → Except AdapterError SummaryResponse)
    (db : DB) (process_id : String) (req : TranscriptRequest) (now : Nat) : DB :=
  match sp_process_transcript env run req.text req.model req.model_name req.chunk_size req.overlap with
  | .ok res =>
    let final := aggregate res.2
    let db1 := if final.MeetingName = "" then db
      else update_meeting_name db process_id final.MeetingName now
    { db1 with summary_processes := update_process db1.summary_processes process_id "completed"
                                      (some (PyVal.pstr (finalJson final))) none none none none now }
  | .error e =>
    { db with summary_processes := update_process db.summary_processes process_id "failed"
                                     none (some e.message) none none none now }

inductive ApiResponse where
  | ok (message process_id : String)
  | httpError (status_code : Nat) (detail : String)
deriving DecidableEq

/-- The `str(e)` of the TypeError Python raises when `main.py` line 224 calls
`db.create_process()` without the required positional `meeting_id`. -/
def createProcessArityError : String :=
  "create_process() missing 1 required positional argument: meeting_id"

/-- Call embedding for `DatabaseManager.create_process`, whose `meeting_id`
parameter has no default: a call site that supplies no argument (as
`main.py` line 224 does) raises TypeError before the store is touched. -/
def create_process_call (rows : List (String × ProcessRow)) (arg : Option String) (now : Nat) :
    Except String (List (String × ProcessRow) × String) :=
  match arg with
  | none => .error createProcessArityError
  | some meeting_id => .ok (create_process rows meeting_id now)

/-- `process_transcript_api` (`main.py` lines 216-250): create the process
record, save the transcript, schedule `process_transcript_background`, and
answer `{"message": "Processing started", "process_id": ...}`; any exception
is converted to `HTTPException(500, str(e))`.  The call at line 224 passes
no argument to `create_process`. -/
def process_transcript_api (db : DB) (req : TranscriptRequest) (now : Nat) : DB × ApiResponse :=
  match create_process_call db.summary_processes none now with
  | .error e => (db, .httpError 500 e)
  | .ok pr =>
    let db1 : DB := { db with summary_processes := pr.1 }
    let db2 : DB := { db1 with transcript_chunks := save_transcript db1.transcript_chunks pr.2
                                 req.text req.model req.model_name req.chunk_size req.overlap now }
    (db2, .ok "Processing started" pr.2)

/-! ### Concrete data used by witnesses and counterexamples -/

def sampleBlockA : Block := ⟨"b1", "text", "Budget approved", "gray"⟩

def sampleBlockB : Block := ⟨"b2", "text", "Ship on Friday", "blue"⟩

def sampleA : SummaryResponse where
  MeetingName := "Standup"
  SectionSummary := ⟨"Section Summary", [sampleBlockA]⟩
  CriticalDeadlines := ⟨"Critical Deadlines", []⟩
  KeyItemsDecisions := ⟨"Key Items & Decisions", []⟩
  ImmediateActionItems := ⟨"Immediate Action Items", []⟩
  NextSteps := ⟨"Next Steps", []⟩
  OtherImportantPoints := ⟨"Other Important Points", []⟩
  ClosingRemarks := ⟨"Closing Remarks", []⟩

def sampleB : SummaryResponse where
  MeetingName := ""
  SectionSummary := ⟨"Section Summary", [sampleBlockB]⟩
  CriticalDeadlines := ⟨"Critical Deadlines", []⟩
  KeyItemsDecisions := ⟨"Key Items & Decisions", []⟩
  ImmediateActionItems := ⟨"Immediate Action Items", []⟩
  NextSteps := ⟨"Next Steps", [sampleBlockB]⟩
  OtherImportantPoints := ⟨"Other Important Points", []⟩
  ClosingRemarks := ⟨"Closing Remarks", []⟩

/-- A freshly created PENDING row with all timestamps at `t`. -/
def rowP (t : Nat) : ProcessRow :=
  ⟨"PENDING", t, t, none, none, some t, none, 0, 0, none⟩

/-- An environment with no API keys configured (enough for `ollama`). -/
def envO : Env := ⟨none, none⟩

/-- Adapter-call outcomes for a three-chunk run whose middle chunk always
returns malformed output. -/
def attemptC5 : Nat → Nat → Except AdapterError SummaryResponse :=
  fun i _ => if i = 1 then .error .malformed else if i = 0 then .ok sampleA else .ok sampleB

def sC5 : Nat → SummaryResponse := fun i => if i = 0 then sampleA else sampleB

def wsC5 : List (List Char) := [['a', 'b'], ['c', 'd'], ['e', 'f']]

def reqC5 : TranscriptRequest := ⟨"abcdef".toList, "ollama", "llama3", 2, 0⟩

def dbC5 : DB := ⟨[("p5", rowP 0)], [], []⟩

/-- Adapter-call outcomes for a two-chunk run whose first chunk hits a
transport failure. -/
def attemptC6 : Nat → Nat → Except AdapterError SummaryResponse :=
  fun i _ => if i = 0 then .error .modelUnavailable else .ok sampleB

def wsC6 : List (List Char) := [['a', 'b'], ['c', 'd']]

def reqC6 : TranscriptRequest := ⟨"abcd".toList, "ollama", "llama3", 2, 0⟩

def dbC6 : DB := ⟨[("p6", rowP 0)], [], []⟩

/-- An adapter that always succeeds with `sampleA`. -/
def runOkA : Nat → Except AdapterError SummaryResponse := fun _ => .ok sampleA

def reqC8 : TranscriptRequest := ⟨"hi".toList, "ollama", "llama3", 5000, 1000⟩

def dbC8 : DB := ⟨[("p8", rowP 0)], [], []⟩

def reqEmptyText : TranscriptRequest := ⟨[], "claude", "claude-3-5-sonnet-20241022", 5000, 1000⟩

def reqHello : TranscriptRequest := ⟨"hello".toList, "claude", "claude-3-5-sonnet-20241022", 5000, 1000⟩

def dbNil : DB := ⟨[], [], []⟩

def dbC9 : DB := ⟨[("p9", rowP 3)], [], []⟩

/-- A job row already in a terminal state. -/
def rowC7 : ProcessRow := ⟨"COMPLETED", 0, 1, none, some "r", some 0, some 1, 3, 2, none⟩

/-- A job row with every nullable column populated and non-zero counters. -/
def rowRich : ProcessRow :=
  ⟨"PENDING", 0, 0, some "old error", some "old result", some 0, none, 7, 3, some "old meta"⟩

/-- Decidable equality of `Except` results, used to evaluate witnesses. -/
instance {ε α : Type} [DecidableEq ε] [DecidableEq α] : DecidableEq (Except ε α) := fun a b =>
  match a, b with
  | .error e1, .error e2 =>
    if h : e1 = e2 then .isTrue (congrArg Except.error h)
    else .isFalse (fun hh => h (by injection hh))
  | .error _, .ok _ => .isFalse (fun hh => Except.noConfusion hh)
  | .ok _, .error _ => .isFalse (fun hh => Except.noConfusion hh)
  | .ok a1, .ok a2 =>
    if h : a1 = a2 then .isTrue (congrArg Except.ok h)
    else .isFalse (fun hh => h (by injection hh))

end MeetingMinutes

namespace MeetingMinutes

/-! ### Lemmas about `pyRange` -/

theorem pyRangeGo_length (n step : Nat) (hs : 0 < step) :
    ∀ fuel i, n - i < fuel →
      (pyRangeGo n step fuel i).length = (n - i + step - 1) / step := by
  intro fuel
  induction fuel with
  | zero => intro i h; omega
  | succ fuel ih =>
    intro i h
    by_cases hi : i < n
    · have hrw : pyRangeGo n step (fuel + 1) i = i :: pyRangeGo n step fuel (i + step) := by
        simp [pyRangeGo, hi]
      rw [hrw, List.length_cons, ih (i + step) (by omega)]
      rcases Nat.lt_or_ge (i + step) n with hlt | hge
      · have h1 : n - i + step - 1 = (n - (i + step) + step - 1) + step := by omega
        rw [h1, Nat.add_div_right _ hs]
      · have h1 : n - (i + step) + step - 1 < step := by omega
        have h2 : n - i + step - 1 = (n - i - 1) + step := by omega
        rw [Nat.div_eq_of_lt h1, h2, Nat.add_div_right _ hs,
          Nat.div_eq_of_lt (by omega)]
    · have hrw : pyRangeGo n step (fuel + 1) i = [] := by
        simp [pyRangeGo, hi]
      rw [hrw]
      have : n - i + step - 1 < step := by omega
      simp [Nat.div_eq_of_lt this]

theorem pyRangeGo_getElem (n step : Nat) :
    ∀ fuel i k, k < (pyRangeGo n step fuel i).length →
      (pyRangeGo n step fuel i)[k]? = some (i + k * step) := by
  intro fuel
  induction fuel with
  | zero => intro i k hk; simp [pyRangeGo] at hk
  | succ fuel ih =>
    intro i k hk
    by_cases hi : i < n
    · have hrw : pyRangeGo n step (fuel + 1) i = i :: pyRangeGo n step fuel (i + step) := by
        simp [pyRangeGo, hi]
      match k with
      | 0 =>
        rw [hrw, List.getElem?_cons_zero]
        simp only [Option.some.injEq]
        omega
      | k + 1 =>
        have hk2 : k < (pyRangeGo n step fuel (i + step)).length := by
          rw [hrw] at hk; simpa using hk
        rw [hrw, List.getElem?_cons_succ, ih (i + step) k hk2]
        have hk3 : i + step + k * step = i + (k + 1) * step := by ring
        rw [hk3]
    · have hrw : pyRangeGo n step (fuel + 1) i = [] := by
        simp [pyRangeGo, hi]
      rw [hrw] at hk; simp at hk

theorem pyRange_length (n step : Nat) (hs : 0 < step) :
    (pyRange n step).length = (n + step - 1) / step := by
  have := pyRangeGo_length n step hs (n + 1) 0 (by omega)
  simpa [pyRange] using this

theorem pyRange_getElem (n step : Nat) (k : Nat) (hk : k < (pyRange n step).length) :
    (pyRange n step)[k]? = some (k * step) := by
  have := pyRangeGo_getElem n step (n + 1) 0 k hk
  simpa [pyRange] using this

/-- The dropped tail of the window at offset `j` is a `step`-wide slice
starting at `j + ov`. -/
theorem window_drop_eq (text : List Char) (cs ov j : Nat) :
    ((text.drop j).take cs).drop ov = (text.drop (j + ov)).take (cs - ov) := by
  rw [List.drop_take, List.drop_drop]

theorem pyRangeGo_join (text : List Char) (cs ov step : Nat)
    (hstep : step = cs - ov) (hov : ov < cs) :
    ∀ fuel i, text.length - i < fuel → i < text.length →
      ((pyRangeGo text.length step fuel i).map
        (fun j => ((text.drop j).take cs).drop ov)).flatten = text.drop (i + ov) := by
  have hs : 0 < step := by omega
  intro fuel
  induction fuel with
  | zero => intro i h; omega
  | succ fuel ih =>
    intro i hfuel hi
    have hrw : pyRangeGo text.length step (fuel + 1) i
        = i :: pyRangeGo text.length step fuel (i + step) := by
      simp [pyRangeGo, hi]
    rw [hrw, List.map_cons, List.flatten_cons, window_drop_eq]
    rcases Nat.lt_or_ge (i + step) text.length with hlt | hge
    · rw [ih (i + step) (by omega) hlt]
      have h2 : (text.drop (i + ov)).drop (cs - ov) = text.drop (i + step + ov) := by
        rw [List.drop_drop]
        have h3 : i + ov + (cs - ov) = i + step + ov := by omega
        rw [h3]
      rw [← h2, List.take_append_drop]
    · have hnot : ¬ i + step < text.length := by omega
      have hrw2 : pyRangeGo text.length step fuel (i + step) = [] := by
        cases fuel with
        | zero => rfl
        | succ fuel => simp [pyRangeGo, hnot]
      rw [hrw2]
      simp only [List.map_nil, List.flatten_nil, List.append_nil]
      apply List.take_of_length_le
      rw [List.length_drop]
      omega

/-- Reconstruction: concatenating the windows with each non-first window's
leading `ov` characters removed yields the original text. -/
theorem joinOverlap_tp_windows (text : List Char) (cs ov step : Nat)
    (hstep : step = cs - ov) (hov : ov < cs) :
    joinOverlap (tp_windows text cs step) ov = text := by
  have hs : 0 < step := by omega
  rcases Nat.eq_zero_or_pos text.length with hn | hn
  · have : text = [] := List.length_eq_zero.mp hn
    subst this
    rfl
  · have hrw : pyRange text.length step
        = 0 :: pyRangeGo text.length step (text.length) step := by
      have : pyRangeGo text.length step (text.length + 1) 0
          = 0 :: pyRangeGo text.length step (text.length) (0 + step) := by
        simp [pyRangeGo, hn]
      simpa [pyRange, Nat.zero_add] using this
    rw [tp_windows, hrw, List.map_cons, joinOverlap]
    rcases Nat.lt_or_ge step text.length with hlt | hge
    · have hjoin := pyRangeGo_join text cs ov step hstep hov (text.length) step
        (by omega) hlt
      have hcomp : (fun r => List.drop ov r) ∘ (fun i => (text.drop i).take cs)
          = fun j => ((text.drop j).take cs).drop ov := rfl
      rw [List.map_map, hcomp, hjoin]
      have h1 : step + ov = cs := by omega
      rw [h1, List.drop_zero]
      exact List.take_append_drop cs text
    · have hnot : ¬ step < text.length := by omega
      have hrw2 : pyRangeGo text.length step (text.length) step = [] := by
        obtain ⟨m, hm⟩ : ∃ m, text.length = m + 1 := ⟨text.length - 1, by omega⟩
        rw [hm] at hnot ⊢
        simp [pyRangeGo, hnot]
      rw [hrw2]
      simp only [List.map_nil, List.flatten_nil, List.append_nil, List.drop_zero]
      apply List.take_of_length_le
      omega

/-- Basic facts about the repaired parameters of `main.py` lines 94-100. -/
theorem sp_repair_spec (cs0 ov0 : Int) (h1 : 0 < cs0) (h2 : 0 ≤ ov0) :
    0 ≤ (sp_repair cs0 ov0).2 ∧ (sp_repair cs0 ov0).2 < (sp_repair cs0 ov0).1 := by
  unfold sp_repair
  by_cases h : ov0 ≥ cs0 <;> simp [h] <;> omega

/-- C2: for every text, `chunk_size > 0` and `overlap >= 0`, the repair of
`main.py` lines 94-100 never errors and yields a positive step; chunking then
produces the windows `text[i : i + chunk_size]` for `i = 0, step, 2*step, ...`
while `i < len(text)`; the window count is `ceil(len(text) / step)`; and
concatenating the windows with each non-first window's leading `overlap`
characters removed reconstructs the text. -/
theorem chunker_repair_windows (text : List Char) (cs0 ov0 cs ov : Int) (step : Nat)
    (h1 : 0 < cs0) (h2 : 0 ≤ ov0)
    (hrep : sp_repair cs0 ov0 = (cs, ov))
    (hstep : step = (cs - ov).toNat) :
    0 < cs - ov ∧
    tp_chunks text cs ov = Except.ok (tp_windows text cs.toNat step) ∧
    (tp_windows text cs.toNat step).length = (text.length + step - 1) / step ∧
    (∀ k, k < (tp_windows text cs.toNat step).length →
      (tp_windows text cs.toNat step)[k]? = some ((text.drop (k * step)).take cs.toNat)) ∧
    joinOverlap (tp_windows text cs.toNat step) ov.toNat = text := by
  have hspec := sp_repair_spec cs0 ov0 h1 h2
  rw [hrep] at hspec
  obtain ⟨hov0, hovcs⟩ := hspec
  have hpos : 0 < cs - ov := by omega
  have hstep_pos : 0 < step := by omega
  refine ⟨hpos, ?_, ?_, ?_, ?_⟩
  · unfold tp_chunks tp_repair
    have hns : ¬ cs - ov ≤ 0 := by omega
    simp only [hns, if_false]
    have h0 : ¬ cs - ov = 0 := by omega
    have hneg : ¬ cs - ov < 0 := by omega
    simp only [h0, hneg, if_false]
    rw [hstep]
  · rw [tp_windows, List.length_map, pyRange_length text.length step hstep_pos]
  · intro k hk
    have hk2 : k < (pyRange text.length step).length := by
      rw [tp_windows, List.length_map] at hk
      exact hk
    rw [tp_windows, List.getElem?_map, pyRange_getElem text.length step k hk2]
    rfl
  · apply joinOverlap_tp_windows text cs.toNat ov.toNat step
    · omega
    · omega

/-- Concrete run of the C2 theorem: `chunk_size = 4`, `overlap = 5` is
repaired to `overlap = 3`, step `1`, on a 7-character text. -/
theorem chunker_repair_windows_witness :
    0 < (4 : Int) - 3 ∧
    tp_chunks "abcdefg".toList 4 3 = Except.ok (tp_windows "abcdefg".toList (4 : Int).toNat 1) ∧
    (tp_windows "abcdefg".toList (4 : Int).toNat 1).length = ("abcdefg".toList.length + 1 - 1) / 1 ∧
    (∀ k, k < (tp_windows "abcdefg".toList (4 : Int).toNat 1).length →
      (tp_windows "abcdefg".toList (4 : Int).toNat 1)[k]? =
        some (("abcdefg".toList.drop (k * 1)).take (4 : Int).toNat)) ∧
    joinOverlap (tp_windows "abcdefg".toList (4 : Int).toNat 1) (3 : Int).toNat = "abcdefg".toList :=
  chunker_repair_windows "abcdefg".toList 4 5 4 3 1 (by decide) (by decide) (by decide) (by decide)

/-! ### Lemmas about the aggregator -/

theorem foldl_aggStep_blocks (l : List SummaryResponse) :
    ∀ acc k, (((l.foldl aggStep acc)).sectionOf k).blocks
      = (acc.sectionOf k).blocks ++ (l.map (fun s => (s.sectionOf k).blocks)).flatten := by
  induction l with
  | nil => intro acc k; simp
  | cons x l ih =>
    intro acc k
    rw [List.foldl_cons, ih]
    have hstep : ((aggStep acc x).sectionOf k).blocks
        = (acc.sectionOf k).blocks ++ (x.sectionOf k).blocks := by
      cases k <;> rfl
    rw [hstep, List.map_cons, List.flatten_cons, List.append_assoc]

theorem foldl_aggStep_title (l : List SummaryResponse) :
    ∀ acc k, (((l.foldl aggStep acc)).sectionOf k).title = (acc.sectionOf k).title := by
  induction l with
  | nil => intro acc k; rfl
  | cons x l ih =>
    intro acc k
    rw [List.foldl_cons, ih]
    cases k <;> rfl

theorem foldl_aggStep_name (l : List SummaryResponse) :
    ∀ acc, (l.foldl aggStep acc).MeetingName
      = ((l.map (fun s => s.MeetingName)).filter (fun n => n != "")).getLastD acc.MeetingName := by
  induction l with
  | nil => intro acc; rfl
  | cons x l ih =>
    intro acc
    rw [List.foldl_cons, ih, List.map_cons]
    have ha : (aggStep acc x).MeetingName
        = if x.MeetingName = "" then acc.MeetingName else x.MeetingName := rfl
    by_cases hx : x.MeetingName = ""
    · have hf : (x.MeetingName :: l.map (fun s => s.MeetingName)).filter (fun n => n != "")
          = (l.map (fun s => s.MeetingName)).filter (fun n => n != "") := by
        rw [List.filter_cons]; simp [hx]
      rw [hf, ha, if_pos hx]
    · have hf : (x.MeetingName :: l.map (fun s => s.MeetingName)).filter (fun n => n != "")
          = x.MeetingName :: (l.map (fun s => s.MeetingName)).filter (fun n => n != "") := by
        rw [List.filter_cons]; simp [hx]
      rw [hf, ha, if_neg hx, List.getLastD_cons]

/-- C3: the aggregate contains exactly the seven fixed section keys (the
`SummaryResponse` record has exactly the seven section fields enumerated by
`SectionKey`); per section the final blocks are the concatenation, in chunk
order, of that section's blocks across the inputs; the empty aggregation is
the initial dict: all seven sections with empty blocks and empty name. -/
theorem aggregate_sections (l : List SummaryResponse) :
    (∀ k, ((aggregate l).sectionOf k).blocks = (l.map (fun s => (s.sectionOf k).blocks)).flatten) ∧
    (∀ k, ((aggregate l).sectionOf k).title = sectionTitle k) ∧
    aggregate [] = emptyFinalSummary ∧
    (∀ k, (emptyFinalSummary.sectionOf k).blocks = []) ∧
    emptyFinalSummary.MeetingName = "" := by
  refine ⟨?_, ?_, rfl, ?_, rfl⟩
  · intro k
    rw [aggregate, foldl_aggStep_blocks]
    have : (emptyFinalSummary.sectionOf k).blocks = [] := by cases k <;> rfl
    rw [this, List.nil_append]
  · intro k
    rw [aggregate, foldl_aggStep_title]
    cases k <;> rfl
  · intro k
    cases k <;> rfl

/-- C4: the aggregated `MeetingName` is the last non-empty name of the chunk
summaries in chunk order, and the empty string when every chunk's name is
empty. -/
theorem aggregate_meeting_name (l : List SummaryResponse) :
    (aggregate l).MeetingName
      = ((l.map (fun s => s.MeetingName)).filter (fun n => n != "")).getLastD "" := by
  rw [aggregate, foldl_aggStep_name]
  rfl

/-! ### Lemmas about the job store -/

theorem getRow_patchRows (rows : List (String × ProcessRow)) (id : String)
    (patch : ProcessRow → ProcessRow) :
    getRow (patchRows rows id patch) id = (getRow rows id).map patch := by
  induction rows with
  | nil => rfl
  | cons kv rows ih =>
    by_cases h : kv.1 = id
    · simp [getRow, patchRows, List.find?_cons, h]
    · simp only [getRow, patchRows, List.map_cons] at ih ⊢
      rw [if_neg h]
      have hb : (kv.1 == id) = false := by simp [h]
      rw [List.find?_cons, hb, List.find?_cons, hb]
      exact ih

theorem any_of_getRow (rows : List (String × ProcessRow)) (id : String) (row : ProcessRow)
    (h : getRow rows id = some row) : rows.any (fun kv => kv.1 == id) = true := by
  induction rows with
  | nil => simp [getRow] at h
  | cons kv rows ih =>
    by_cases hk : kv.1 = id
    · simp [hk]
    · have hb : (kv.1 == id) = false := by simp [hk]
      have h2 : getRow rows id = some row := by
        simpa [getRow, List.find?_cons, hb] using h
      rw [List.any_cons, hb, Bool.false_or]
      exact ih h2

/-- The terminal completion write of the orchestrator: status is the
lower-case "completed", a non-empty result string is serialized again and
stored, and the end_time stamp does not fire (case-sensitive comparison
against the upper-case enum values). -/
theorem update_row_completed (row : ProcessRow) (s : String) (hs : ¬ s = "") (now : Nat) :
    update_row row "completed" (some (PyVal.pstr s)) none none none none now
      = { row with status := "completed", updated_at := now,
                   result := some (PyVal.pstr s).dumps } := by
  have ht : (PyVal.pstr s).truthy = true := by simp [PyVal.truthy, hs]
  have hterm : ¬(("completed" : String) = "COMPLETED" ∨ ("completed" : String) = "FAILED") := by
    decide
  simp only [update_row, ht, if_true, if_neg hterm]

/-- The terminal failure write of the orchestrator: a non-empty error message
is stored; the end_time stamp does not fire for the lower-case "failed". -/
theorem update_row_failed (row : ProcessRow) (msg : String) (hmsg : ¬ msg = "") (now : Nat) :
    update_row row "failed" none (some msg) none none none now
      = { row with status := "failed", updated_at := now, error := some msg } := by
  have hterm : ¬(("failed" : String) = "COMPLETED" ∨ ("failed" : String) = "FAILED") := by
    decide
  simp only [update_row, if_neg hmsg, if_neg hterm]

/-- Falsy `result`, `error` and `metadata` arguments are ignored, while
`chunk_count` and `processing_time` are written whenever supplied. -/
theorem update_row_falsy (row : ProcessRow) (st : String) (cc : Int) (pt : Rat) (now : Nat) :
    update_row row st (some (PyVal.pdict [])) (some "") (some cc) (some pt)
        (some (PyVal.pdict [])) now
      = { row with status := st, updated_at := now, chunk_count := cc,
                   processing_time := pt,
                   end_time := if st = "COMPLETED" ∨ st = "FAILED" then some now
                               else row.end_time } := by
  have key : update_row row st (some (PyVal.pdict [])) (some "") (some cc) (some pt)
        (some (PyVal.pdict [])) now
      = if st = "COMPLETED" ∨ st = "FAILED"
        then { row with status := st, updated_at := now, chunk_count := cc,
                        processing_time := pt, end_time := some now }
        else { row with status := st, updated_at := now, chunk_count := cc,
                        processing_time := pt } := rfl
  rw [key]
  by_cases hst : st = "COMPLETED" ∨ st = "FAILED"
  · rw [if_pos hst, if_pos hst]
  · rw [if_neg hst, if_neg hst]

/-- A truthy `result` argument is serialized and written. -/
theorem update_row_truthy_result (row : ProcessRow) (st : String) (v : PyVal) (now : Nat)
    (hv : v.truthy = true) :
    update_row row st (some v) none none none none now
      = { row with status := st, updated_at := now, result := some v.dumps,
                   end_time := if st = "COMPLETED" ∨ st = "FAILED" then some now
                               else row.end_time } := by
  simp only [update_row, hv, if_true]
  by_cases hst : st = "COMPLETED" ∨ st = "FAILED"
  · rw [if_pos hst, if_pos hst]
  · rw [if_neg hst, if_neg hst]

/-- The status column always receives exactly the supplied status string. -/
theorem update_row_status (row : ProcessRow) (st : String) (result : Option PyVal)
    (error : Option String) (cc : Option Int) (pt : Option Rat) (md : Option PyVal) (now : Nat) :
    (update_row row st result error cc pt md now).status = st := by
  cases result <;> cases error <;> cases cc <;> cases pt <;> cases md <;>
    simp only [update_row] <;> split_ifs <;> rfl

/-! ### Lemmas about the adapter retry loop and the per-chunk loop -/

theorem agentRunGo_all_malformed (f : Nat → Except AdapterError SummaryResponse)
    (hf : ∀ j, f j = Except.error AdapterError.malformed) :
    ∀ fuel k, agentRunGo f k fuel = Except.error AdapterError.malformed := by
  intro fuel
  induction fuel with
  | zero => intro k; exact hf k
  | succ fuel ih =>
    intro k
    simp only [agentRunGo, hf k]
    exact ih (k + 1)

/-- Exhausting the malformed-output retries fails the chunk. -/
theorem agentRun_exhausts (f : Nat → Except AdapterError SummaryResponse)
    (hf : ∀ j, f j = Except.error AdapterError.malformed) :
    agentRun f = Except.error AdapterError.malformed :=
  agentRunGo_all_malformed f hf 5 0

/-- A non-malformed (transport-level) failure propagates from the first
attempt without any retry. -/
theorem agentRun_transport (f : Nat → Except AdapterError SummaryResponse)
    (e : AdapterError) (hne : ¬ e = AdapterError.malformed)
    (h0 : f 0 = Except.error e) : agentRun f = Except.error e := by
  show agentRunGo f 0 5 = _
  simp only [agentRunGo, h0]
  cases e with
  | malformed => exact absurd rfl hne
  | modelUnavailable => rfl
  | modelTimeout => rfl

theorem filterMap_skip_pointwise (f : Nat → Option SummaryResponse)
    (s : Nat → SummaryResponse) (c : Nat) (hc : f c = none) :
    ∀ l : List Nat, (∀ i ∈ l, i ≠ c → f i = some (s i)) →
      l.filterMap f = (l.filter (fun i => i != c)).map s := by
  intro l
  induction l with
  | nil => intro _; rfl
  | cons i l ih =>
    intro h
    have htail : ∀ j ∈ l, j ≠ c → f j = some (s j) :=
      fun j hj hne => h j (List.mem_cons_of_mem _ hj) hne
    by_cases hic : i = c
    · subst hic
      rw [List.filterMap_cons_none hc, List.filter_cons]
      have hfilter : (i != i) = false := by simp
      rw [hfilter]
      simp only [Bool.false_eq_true, if_false]
      exact ih htail
    · have hr : f i = some (s i) := h i (List.mem_cons_self _ _) hic
      rw [List.filterMap_cons_some hr, List.filter_cons]
      have hfilter : (i != c) = true := by simp [hic]
      rw [hfilter]
      simp only [if_true, List.map_cons]
      rw [ih htail]

/-- In the per-chunk loop, one failing chunk is skipped and every other chunk
contributes its summary, in order. -/
theorem processChunks_skip (run : Nat → Except AdapterError SummaryResponse)
    (s : Nat → SummaryResponse) (n c : Nat) (e : AdapterError)
    (hc : run c = Except.error e)
    (hok : ∀ i, i < n → i ≠ c → run i = Except.ok (s i)) :
    processChunks run n = ((List.range n).filter (fun i => i != c)).map s := by
  unfold processChunks
  have hcn : (fun i => (run i).toOption) c = none := by
    show (run c).toOption = none
    rw [hc]; rfl
  apply filterMap_skip_pointwise (fun i => (run i).toOption) s c hcn
  intro i hi hne
  show (run i).toOption = some (s i)
  rw [hok i (List.mem_range.mp hi) hne]; rfl

/-! ### Lemmas about the orchestrator -/

theorem sp_process_ok_shape (env : Env) (run : Nat → Except AdapterError SummaryResponse)
    (text : List Char) (model model_name : String) (cs ov : Int) (ws : List (List Char))
    (hmodel : selectModel env model = Except.ok ())
    (htext : ¬ text = []) (hcs : 0 < cs) (hov : 0 ≤ ov)
    (hws : tp_chunks text (sp_repair cs ov).1 (sp_repair cs ov).2 = Except.ok ws) :
    sp_process_transcript env run text model model_name cs ov
      = Except.ok (ws.length, processChunks run ws.length) := by
  have h1 : text.isEmpty = false := by
    cases text with
    | nil => exact absurd rfl htext
    | cons c t => rfl
  simp only [sp_process_transcript, h1, Bool.false_eq_true, if_false]
  rw [if_neg (by omega : ¬ cs ≤ 0), if_neg (by omega : ¬ ov < 0)]
  simp only [tp_process_transcript, hmodel, hws]

theorem update_meeting_name_processes (db : DB) (id name : String) (now : Nat) :
    (update_meeting_name db id name now).summary_processes = db.summary_processes := rfl

theorem finalJson_ne_empty (f : SummaryResponse) : ¬ finalJson f = "" := by
  intro h
  have hl := congrArg String.length h
  simp only [finalJson, String.length_append] at hl
  have h16 : ("\x7b\"MeetingName\": " : String).length = 16 := by decide
  have h0 : ("" : String).length = 0 := rfl
  rw [h16, h0] at hl
  omega

/-- When the pipeline returns chunk results, the background task writes the
completion update for the job row: status "completed", result set to the
doubly-serialized aggregate, updated_at restamped, and nothing else changed
(in particular end_time is left alone, see the C8 analysis). -/
theorem background_completed_row (env : Env) (run : Nat → Except AdapterError SummaryResponse)
    (db : DB) (pid : String) (req : TranscriptRequest) (now : Nat) (row : ProcessRow)
    (res : Nat × List SummaryResponse)
    (hsp : sp_process_transcript env run req.text req.model req.model_name
        req.chunk_size req.overlap = Except.ok res)
    (hrow : getRow db.summary_processes pid = some row) :
    getRow (process_transcript_background env run db pid req now).summary_processes pid
      = some { row with status := "completed", updated_at := now,
                        result := some (PyVal.pstr (finalJson (aggregate res.2))).dumps } := by
  simp only [process_transcript_background, hsp]
  by_cases hname : (aggregate res.2).MeetingName = ""
  · rw [if_pos hname]
    show getRow (update_process db.summary_processes pid "completed"
        (some (PyVal.pstr (finalJson (aggregate res.2)))) none none none none now) pid = _
    rw [update_process, getRow_patchRows, hrow, Option.map_some',
      update_row_completed row _ (finalJson_ne_empty _) now]
  · rw [if_neg hname]
    show getRow (update_process (update_meeting_name db pid (aggregate res.2).MeetingName
        now).summary_processes pid "completed"
        (some (PyVal.pstr (finalJson (aggregate res.2)))) none none none none now) pid = _
    rw [update_meeting_name_processes, update_process, getRow_patchRows, hrow, Option.map_some',
      update_row_completed row _ (finalJson_ne_empty _) now]

/-! ### Claim theorems C1, C5-C10 -/

/-- C1: every POST /process-transcript call, whatever the request, raises the
TypeError of the argument-less `create_process()` call at `main.py` line 224
and answers HTTP 500 with the store untouched, instead of returning
`message`/`process_id` for a freshly created PENDING job. -/
theorem submit_always_type_errors (db : DB) (req : TranscriptRequest) (now : Nat) :
    process_transcript_api db req now
      = (db, ApiResponse.httpError 500 createProcessArityError) := rfl

/-- C5: in a multi-chunk job where chunk `c` exhausts its malformed-output
retries while every other chunk succeeds, chunk `c` is skipped from
aggregation, the job still receives the terminal completion write, and the
stored result is the aggregate of exactly the successful chunks'
contributions, in chunk order. -/
theorem chunk_retry_exhaustion_tolerated
    (env : Env) (attempt : Nat → Nat → Except AdapterError SummaryResponse)
    (s : Nat → SummaryResponse) (db : DB) (pid : String) (req : TranscriptRequest)
    (now : Nat) (row : ProcessRow) (ws : List (List Char)) (c : Nat)
    (hmodel : selectModel env req.model = Except.ok ())
    (htext : ¬ req.text = [])
    (hcs : 0 < req.chunk_size) (hov : 0 ≤ req.overlap)
    (hws : tp_chunks req.text (sp_repair req.chunk_size req.overlap).1
        (sp_repair req.chunk_size req.overlap).2 = Except.ok ws)
    (hmulti : 2 ≤ ws.length) (hc : c < ws.length)
    (hfail : ∀ j, attempt c j = Except.error AdapterError.malformed)
    (hok : ∀ i, i < ws.length → i ≠ c → agentRun (attempt i) = Except.ok (s i))
    (hrow : getRow db.summary_processes pid = some row) :
    agentRun (attempt c) = Except.error AdapterError.malformed ∧
    sp_process_transcript env (fun i => agentRun (attempt i)) req.text req.model
        req.model_name req.chunk_size req.overlap
      = Except.ok (ws.length, ((List.range ws.length).filter (fun i => i != c)).map s) ∧
    getRow (process_transcript_background env (fun i => agentRun (attempt i)) db pid req
        now).summary_processes pid
      = some { row with status := "completed", updated_at := now,
                        result := some (PyVal.pstr (finalJson (aggregate
                          (((List.range ws.length).filter (fun i => i != c)).map s)))).dumps } := by
  have h1 : agentRun (attempt c) = Except.error AdapterError.malformed :=
    agentRun_exhausts (attempt c) hfail
  have hskip : processChunks (fun i => agentRun (attempt i)) ws.length
      = ((List.range ws.length).filter (fun i => i != c)).map s :=
    processChunks_skip (fun i => agentRun (attempt i)) s ws.length c AdapterError.malformed h1 hok
  have h2 := sp_process_ok_shape env (fun i => agentRun (attempt i)) req.text req.model
    req.model_name req.chunk_size req.overlap ws hmodel htext hcs hov hws
  rw [hskip] at h2
  exact ⟨h1, h2, background_completed_row env (fun i => agentRun (attempt i)) db pid req now row
    (ws.length, ((List.range ws.length).filter (fun i => i != c)).map s) h2 hrow⟩

/-- Concrete run of the C5 theorem: three chunks, chunk 1 always malformed,
chunks 0 and 2 succeed; the job completes with their contributions. -/
theorem chunk_retry_exhaustion_tolerated_witness :
    agentRun (attemptC5 1) = Except.error AdapterError.malformed ∧
    sp_process_transcript envO (fun i => agentRun (attemptC5 i)) reqC5.text reqC5.model
        reqC5.model_name reqC5.chunk_size reqC5.overlap
      = Except.ok (wsC5.length, ((List.range wsC5.length).filter (fun i => i != 1)).map sC5) ∧
    getRow (process_transcript_background envO (fun i => agentRun (attemptC5 i)) dbC5 "p5"
        reqC5 9).summary_processes "p5"
      = some { rowP 0 with status := "completed", updated_at := 9,
                           result := some (PyVal.pstr (finalJson (aggregate
                             (((List.range wsC5.length).filter (fun i => i != 1)).map sC5)))).dumps } :=
  chunk_retry_exhaustion_tolerated envO attemptC5 sC5 dbC5 "p5" reqC5 9 (rowP 0) wsC5 1
    rfl (by decide) (by decide) (by decide) (by decide) (by decide) (by decide)
    (fun _ => rfl) (by decide) rfl

/-- C6 counterexample: a transport failure (`ModelUnavailable`) during chunk 0
of a two-chunk job does not end the job FAILED; the chunk is skipped and the
terminal write is "completed". -/
theorem transport_error_not_fatal_cex :
    agentRun (attemptC6 0) = Except.error AdapterError.modelUnavailable ∧
    (getRow (process_transcript_background envO (fun i => agentRun (attemptC6 i)) dbC6 "p6"
        reqC6 4).summary_processes "p6").map (fun r => r.status) = some "completed" ∧
    ¬ (getRow (process_transcript_background envO (fun i => agentRun (attemptC6 i)) dbC6 "p6"
        reqC6 4).summary_processes "p6").map (fun r => r.status) = some "failed" := by
  refine ⟨rfl, by decide, by decide⟩

/-- C6 amended: a transport-level failure raised during one chunk's
summarization is indeed not retried (the first attempt decides), but it is
not job-fatal either: the per-chunk handler catches it, the chunk is skipped
from aggregation, and the job still completes with the other chunks'
contributions. -/
theorem transport_error_chunk_skipped
    (env : Env) (attempt : Nat → Nat → Except AdapterError SummaryResponse)
    (s : Nat → SummaryResponse) (db : DB) (pid : String) (req : TranscriptRequest)
    (now : Nat) (row : ProcessRow) (ws : List (List Char)) (c : Nat) (e : AdapterError)
    (he : e = AdapterError.modelUnavailable ∨ e = AdapterError.modelTimeout)
    (hfirst : attempt c 0 = Except.error e)
    (hmodel : selectModel env req.model = Except.ok ())
    (htext : ¬ req.text = [])
    (hcs : 0 < req.chunk_size) (hov : 0 ≤ req.overlap)
    (hws : tp_chunks req.text (sp_repair req.chunk_size req.overlap).1
        (sp_repair req.chunk_size req.overlap).2 = Except.ok ws)
    (hc : c < ws.length)
    (hok : ∀ i, i < ws.length → i ≠ c → agentRun (attempt i) = Except.ok (s i))
    (hrow : getRow db.summary_processes pid = some row) :
    agentRun (attempt c) = Except.error e ∧
    getRow (process_transcript_background env (fun i => agentRun (attempt i)) db pid req
        now).summary_processes pid
      = some { row with status := "completed", updated_at := now,
                        result := some (PyVal.pstr (finalJson (aggregate
                          (((List.range ws.length).filter (fun i => i != c)).map s)))).dumps } := by
  have hne : ¬ e = AdapterError.malformed := by
    rcases he with h | h <;> subst h <;> decide
  have h1 : agentRun (attempt c) = Except.error e := agentRun_transport (attempt c) e hne hfirst
  have hskip : processChunks (fun i => agentRun (attempt i)) ws.length
      = ((List.range ws.length).filter (fun i => i != c)).map s :=
    processChunks_skip (fun i => agentRun (attempt i)) s ws.length c e h1 hok
  have h2 := sp_process_ok_shape env (fun i => agentRun (attempt i)) req.text req.model
    req.model_name req.chunk_size req.overlap ws hmodel htext hcs hov hws
  rw [hskip] at h2
  exact ⟨h1, background_completed_row env (fun i => agentRun (attempt i)) db pid req now row
    (ws.length, ((List.range ws.length).filter (fun i => i != c)).map s) h2 hrow⟩

/-- Concrete run of the amended C6 theorem: chunk 0 hits `ModelUnavailable`,
chunk 1 succeeds, the job completes with chunk 1 only. -/
theorem transport_error_chunk_skipped_witness :
    agentRun (attemptC6 0) = Except.error AdapterError.modelUnavailable ∧
    getRow (process_transcript_background envO (fun i => agentRun (attemptC6 i)) dbC6 "p6"
        reqC6 4).summary_processes "p6"
      = some { rowP 0 with status := "completed", updated_at := 4,
                           result := some (PyVal.pstr (finalJson (aggregate
                             (((List.range wsC6.length).filter (fun i => i != 0)).map
                               (fun _ => sampleB))))).dumps } :=
  transport_error_chunk_skipped envO attemptC6 (fun _ => sampleB) dbC6 "p6" reqC6 4 (rowP 0)
    wsC6 0 AdapterError.modelUnavailable (Or.inl rfl) rfl rfl (by decide) (by decide) (by decide)
    (by decide) (by decide) (by decide) rfl

/-- C7 counterexample: the store lets a job leave COMPLETED: after
create then an update to COMPLETED, a second create resets the row to
PENDING. -/
theorem store_leaves_terminal_cex :
    (getRow (update_process (create_process [] "job1" 0).1 "job1" "COMPLETED"
        none none none none none 1) "job1").map (fun r => r.status) = some "COMPLETED" ∧
    (getRow (create_process (update_process (create_process [] "job1" 0).1 "job1" "COMPLETED"
        none none none none none 1) "job1" 2).1 "job1").map (fun r => r.status)
      = some "PENDING" :=
  ⟨rfl, rfl⟩

/-- C7 amended: the Job Store itself enforces no forward-only discipline:
`update_process` overwrites the status with whatever string is supplied, and
`create_process` on an existing id resets the row to PENDING, clearing
`error` and `result` (while keeping `created_at`); the monotone
PENDING-to-terminal progression holds only for the call sequences the
orchestrator actually issues (one create, then a single terminal update). -/
theorem store_no_transition_guard (rows : List (String × ProcessRow)) (id : String)
    (row : ProcessRow) (st : String) (result : Option PyVal) (error : Option String)
    (cc : Option Int) (pt : Option Rat) (md : Option PyVal) (now : Nat)
    (hrow : getRow rows id = some row) :
    (getRow (update_process rows id st result error cc pt md now) id).map (fun r => r.status)
      = some st ∧
    getRow (create_process rows id now).1 id
      = some { row with status := "PENDING", updated_at := now, start_time := some now,
                        error := none, result := none } := by
  constructor
  · rw [update_process, getRow_patchRows, hrow, Option.map_some', Option.map_some',
      update_row_status]
  · have hany : rows.any (fun kv => kv.1 == id) = true := any_of_getRow rows id row hrow
    rw [create_process, if_pos hany]
    show getRow (patchRows rows id (fun row =>
      { row with status := "PENDING", updated_at := now, start_time := some now,
                 error := none, result := none })) id = _
    rw [getRow_patchRows, hrow, Option.map_some']

/-- Concrete run of the amended C7 theorem: a COMPLETED row is moved back to
PENDING both by a plain update and by a create-reset. -/
theorem store_no_transition_guard_witness :
    (getRow (update_process [("j7", rowC7)] "j7" "PENDING" none none none none none 3)
        "j7").map (fun r => r.status) = some "PENDING" ∧
    getRow (create_process [("j7", rowC7)] "j7" 3).1 "j7"
      = some { rowC7 with status := "PENDING", updated_at := 3, start_time := some 3,
                          error := none, result := none } :=
  store_no_transition_guard [("j7", rowC7)] "j7" rowC7 "PENDING" none none none none none 3 rfl

/-- C8: `update_process` stamps `end_time` only for the upper-case enum
statuses, while the orchestrator's terminal write passes the lower-case
"completed"; at the failing input the stored job ends with `result` set but
`end_time` still unset. -/
theorem completed_update_misses_end_time :
    (getRow (update_process [("p8", rowP 0)] "p8" "COMPLETED" none none none none none 5)
        "p8").map (fun r => r.end_time) = some (some 5) ∧
    (getRow (process_transcript_background envO runOkA dbC8 "p8" reqC8 7).summary_processes
        "p8").map (fun r => (r.status, r.result, r.end_time))
      = some ("completed", some (PyVal.pstr (finalJson (aggregate [sampleA]))).dumps, none) := by
  constructor
  · rfl
  · have hsp : sp_process_transcript envO runOkA reqC8.text reqC8.model reqC8.model_name
        reqC8.chunk_size reqC8.overlap = Except.ok (1, [sampleA]) := by decide
    have h := background_completed_row envO runOkA dbC8 "p8" reqC8 7 (rowP 0) (1, [sampleA])
      hsp rfl
    rw [h]
    rfl

/-- C9 counterexample: submitting empty text is not rejected as an empty-text
`InvalidArgument`: the handler answers the same generic 500 TypeError as a
non-empty submission, whose detail is not the empty-text message. -/
theorem empty_text_not_rejected_cex :
    process_transcript_api dbNil reqEmptyText 0
      = (dbNil, ApiResponse.httpError 500 createProcessArityError) ∧
    (process_transcript_api dbNil reqEmptyText 0).2
      = (process_transcript_api dbNil reqHello 0).2 ∧
    ¬ createProcessArityError = JobError.emptyText.message :=
  ⟨rfl, rfl, by decide⟩

/-- C9 amended: the submit handler performs no empty-text validation (as the
code stands every submission fails with the same TypeError from the
argument-less create_process call, and no job row is written); the empty-text
check lives in the background task, which raises the empty-text ValueError
and records an already-created job as failed. -/
theorem empty_text_checked_in_background
    (db : DB) (req : TranscriptRequest) (env : Env)
    (run : Nat → Except AdapterError SummaryResponse) (pid : String) (row : ProcessRow)
    (t1 t2 : Nat) (htext : req.text = [])
    (hrow : getRow db.summary_processes pid = some row) :
    process_transcript_api db req t1 = (db, ApiResponse.httpError 500 createProcessArityError) ∧
    sp_process_transcript env run req.text req.model req.model_name req.chunk_size req.overlap
      = Except.error JobError.emptyText ∧
    getRow (process_transcript_background env run db pid req t2).summary_processes pid
      = some { row with status := "failed", updated_at := t2,
                        error := some "Empty transcript text provided" } := by
  have hsp : sp_process_transcript env run req.text req.model req.model_name
      req.chunk_size req.overlap = Except.error JobError.emptyText := by
    simp [sp_process_transcript, htext]
  refine ⟨rfl, hsp, ?_⟩
  simp only [process_transcript_background, hsp]
  show getRow (update_process db.summary_processes pid "failed" none
      (some (JobError.message JobError.emptyText)) none none none t2) pid = _
  rw [update_process, getRow_patchRows, hrow, Option.map_some',
    update_row_failed row _ (by decide) t2]
  rfl

/-- Concrete run of the amended C9 theorem. -/
theorem empty_text_checked_in_background_witness :
    process_transcript_api dbC9 reqEmptyText 0
      = (dbC9, ApiResponse.httpError 500 createProcessArityError) ∧
    sp_process_transcript envO runOkA reqEmptyText.text reqEmptyText.model
        reqEmptyText.model_name reqEmptyText.chunk_size reqEmptyText.overlap
      = Except.error JobError.emptyText ∧
    getRow (process_transcript_background envO runOkA dbC9 "p9" reqEmptyText 8).summary_processes
        "p9"
      = some { rowP 3 with status := "failed", updated_at := 8,
                           error := some "Empty transcript text provided" } :=
  empty_text_checked_in_background dbC9 reqEmptyText envO runOkA "p9" (rowP 3) 0 8 rfl rfl

/-- C10: update_process treats supplied-but-falsy values as absent (an empty
dict result, an empty error string and an empty dict metadata leave the
stored fields unchanged; only truthy values are written), while chunk_count
and processing_time are written whenever they are not None, so zero values
are stored. -/
theorem update_falsy_ignored (rows : List (String × ProcessRow)) (id : String)
    (row : ProcessRow) (st : String) (cc : Int) (pt : Rat) (now : Nat)
    (hrow : getRow rows id = some row) :
    getRow (update_process rows id st (some (PyVal.pdict [])) (some "") (some cc) (some pt)
        (some (PyVal.pdict [])) now) id
      = some { row with status := st, updated_at := now, chunk_count := cc,
                        processing_time := pt,
                        end_time := if st = "COMPLETED" ∨ st = "FAILED" then some now
                                    else row.end_time } ∧
    (∀ v : PyVal, v.truthy = true →
      getRow (update_process rows id st (some v) none none none none now) id
        = some { row with status := st, updated_at := now, result := some v.dumps,
                          end_time := if st = "COMPLETED" ∨ st = "FAILED" then some now
                                      else row.end_time }) := by
  constructor
  · rw [update_process, getRow_patchRows, hrow, Option.map_some', update_row_falsy]
  · intro v hv
    rw [update_process, getRow_patchRows, hrow, Option.map_some',
      update_row_truthy_result row st v now hv]

/-- Concrete run of the C10 theorem: zero chunk_count and processing_time are
written over non-zero stored values while the falsy result, error and
metadata leave the stored values untouched. -/
theorem update_falsy_ignored_witness :
    getRow (update_process [("x", rowRich)] "x" "processing" (some (PyVal.pdict []))
        (some "") (some 0) (some 0) (some (PyVal.pdict [])) 9) "x"
      = some { rowRich with status := "processing", updated_at := 9, chunk_count := 0,
                            processing_time := 0,
                            end_time := if ("processing" : String) = "COMPLETED"
                                          ∨ ("processing" : String) = "FAILED" then some 9
                                        else rowRich.end_time } ∧
    (∀ v : PyVal, v.truthy = true →
      getRow (update_process [("x", rowRich)] "x" "processing" (some v) none none none none 9)
          "x"
        = some { rowRich with status := "processing", updated_at := 9, result := some v.dumps,
                              end_time := if ("processing" : String) = "COMPLETED"
                                            ∨ ("processing" : String) = "FAILED" then some 9
                                          else rowRich.end_time }) :=
  update_falsy_ignored [("x", rowRich)] "x" rowRich "processing" 0 0 9 rfl

end MeetingMinutes
